import Mathlib

/-!
# Verification of the nimesh GIfTI codec (`src/nimesh/io/gifti.py`)

A shallow embedding of the GIfTI mesh codec.  Numeric payloads are modelled
with `ℚ` (floats) and `ℤ` (integers); the narrowing casts performed by
`astype('f4')` / `astype('i4')` are explicit functions (`toF32`, `toI32`).
The in-memory entity model (`Mesh`, `Segmentation`, `Label`, `VertexData`,
`AffineTransform`, `CoordinateSystem`) lives in `nimesh/core.py`, which is not
part of the sources; those definitions are modelled from the spec and marked
as such.  Everything under "Codec" is translated from `src/nimesh/io/gifti.py`.
-/

namespace Nimesh

/-! ## Numeric narrowing -/

/-- Round-to-nearest with ties to even, the rounding used by IEEE-754 casts
and by `np.round`. -/
def roundHalfEven (q : ℚ) : ℤ :=
  if q - ⌊q⌋ = 1/2 then (if 2 ∣ ⌊q⌋ then ⌊q⌋ else ⌊q⌋ + 1) else round q

/-- `⌊log₂ q⌋` for a positive rational, computed from the numerator and
denominator bit lengths with a correction step. -/
def qlog2 (q : ℚ) : ℤ :=
  let g : ℤ := (q.num.natAbs.log2 : ℤ) - (q.den.log2 : ℤ)
  if q < (2 : ℚ) ^ g then g - 1 else if q < (2 : ℚ) ^ (g + 1) then g else g + 1

/-- Narrowing of a real (rational) value to IEEE-754 binary32, as performed by
`astype('f4')`: round the significand to 24 bits (half to even), with the
subnormal exponent floor at `-126`.  Values beyond the finite binary32 range
(which overflow to infinity) are outside the model: the same rounding formula
is applied to them. -/
def toF32 (q : ℚ) : ℚ :=
  if q = 0 then 0
  else
    let e : ℤ := max (qlog2 |q|) (-126)
    let scale : ℚ := 2 ^ (23 - e)
    (roundHalfEven (q * scale) : ℚ) / scale

/-- Narrowing of an integer to a 4-byte signed integer, as performed by
`astype('i4')`: wrap modulo `2^32` into `[-2^31, 2^31)`. -/
def toI32 (z : ℤ) : ℤ :=
  (z + 2 ^ 31) % 2 ^ 32 - 2 ^ 31

/-! ## Entity model

Modelled from the spec: the entity model is defined in `nimesh/core.py`,
which is not among the sources; only `src/nimesh/io/gifti.py` is.  The
definitions below follow §3 (DATA MODEL) of the spec. -/

/-- Modelled from the spec: the closed enumeration of spatial reference
frames (`CoordinateSystem` in the missing `nimesh/core.py`).  The spec lists
the members; the codec's encoding table covers exactly these seven. -/
inductive CoordinateSystem where
  | UNKNOWN
  | SCANNER
  | RAS
  | LPS
  | VOXEL
  | MNI
  | TALAIRACH
  deriving DecidableEq, Repr

/-- Modelled from the spec: the integer value of each enumeration member
(`CoordinateSystem.value` in Python).  The concrete values are internal to
the missing `nimesh/core.py`; the codec relies only on the round-trip with
`CoordinateSystem.ofValue?`, so an arbitrary injective assignment is used. -/
def CoordinateSystem.value : CoordinateSystem → ℕ
  | .UNKNOWN => 0
  | .SCANNER => 1
  | .RAS => 2
  | .LPS => 3
  | .VOXEL => 4
  | .MNI => 5
  | .TALAIRACH => 6

/-- Modelled from the spec: lookup of an enumeration member by value, the
Python `CoordinateSystem(v)` enum construction.  `none` models the
`ValueError` raised when `v` is not the value of any member. -/
def CoordinateSystem.ofValue? : ℕ → Option CoordinateSystem
  | 0 => some .UNKNOWN
  | 1 => some .SCANNER
  | 2 => some .RAS
  | 3 => some .LPS
  | 4 => some .VOXEL
  | 5 => some .MNI
  | 6 => some .TALAIRACH
  | _ => none

/-- Modelled from the spec: a `Label` is a display name and an RGB(A) color
stored as 0–255 integer channels. -/
structure Label where
  name : String
  color : List ℤ
  deriving DecidableEq, Repr

/-- Modelled from the spec: a `VertexData` is a name plus one scalar value
per vertex. -/
structure VertexData where
  name : String
  data : List ℚ
  deriving DecidableEq, Repr

/-- Modelled from the spec: an `AffineTransform` is a target coordinate
system (the space the transform maps to) plus an affine matrix. -/
structure AffineTransform where
  transform_coord_sys : CoordinateSystem
  affine : List (List ℚ)
  deriving DecidableEq, Repr

/-- Modelled from the spec: a `Segmentation` is a name, an integer label-key
per vertex, and a mapping from label-key to `Label`.  The mapping is a Python
dict; it is modelled as an association list in insertion order (dict keys are
unique by construction, which theorems state as a hypothesis where needed). -/
structure Segmentation where
  name : String
  keys : List ℤ
  labels : List (ℤ × Label)
  deriving DecidableEq, Repr

/-- Modelled from the spec: `Segmentation.add_label` — dict assignment
`labels[key] = label`: replace the entry when the key is present, append
otherwise. -/
def add_label (ls : List (ℤ × Label)) (k : ℤ) (l : Label) : List (ℤ × Label) :=
  if ls.any (fun p => p.1 = k) then
    ls.map (fun p => if p.1 = k then (k, l) else p)
  else
    ls ++ [(k, l)]

/-- Modelled from the spec: a `Mesh` holds vertices (N×3 floats), triangles
(M×3 integer index triples), a primary coordinate system, optional normals,
and attached transforms, segmentations and vertex-data maps (the `add_*`
mutators append to these lists).  The spec's shape invariants are properties
of values, not enforced by construction. -/
structure Mesh where
  vertices : List (List ℚ)
  triangles : List (List ℤ)
  coordinate_system : CoordinateSystem
  normals : Option (List (List ℚ))
  transforms : List AffineTransform
  segmentations : List Segmentation
  vertex_data : List VertexData
  deriving DecidableEq, Repr

/-! ## Container model

The GIfTI container as exposed by the external library (nibabel), per §6 of
the spec: a sequence of typed, intent-tagged data arrays with free-form
metadata, a label table, and file-level metadata.  Only the metadata keys the
codec reads (`cs`, `tcs`, `name`) are modelled as typed fields; the integer
side-channel values are stored directly (the `str`/`int` round-trip through
the metadata map is exact). -/

/-- The intent tag vocabulary used by the codec. -/
inductive Intent where
  | pointset
  | triangle
  | vector
  | label
  | estimate
  deriving DecidableEq, Repr

/-- The datatype tags used by the codec. -/
inductive DataType where
  | float32
  | int32
  deriving DecidableEq, Repr

/-- A data array payload: 2-D or 1-D, float or integer. -/
inductive GiftiData where
  | f2 (rows : List (List ℚ))
  | i2 (rows : List (List ℤ))
  | f1 (vals : List ℚ)
  | i1 (vals : List ℤ)
  deriving DecidableEq, Repr

/-- The 2-D float payload, when the array holds one. -/
def GiftiData.asF2 : GiftiData → Option (List (List ℚ))
  | .f2 rows => some rows
  | _ => none

/-- The 2-D integer payload, when the array holds one. -/
def GiftiData.asI2 : GiftiData → Option (List (List ℤ))
  | .i2 rows => some rows
  | _ => none

/-- The 1-D float payload, when the array holds one. -/
def GiftiData.asF1 : GiftiData → Option (List ℚ)
  | .f1 vals => some vals
  | _ => none

/-- The 1-D integer payload, when the array holds one. -/
def GiftiData.asI1 : GiftiData → Option (List ℤ)
  | .i1 vals => some vals
  | _ => none

/-- Per-array metadata, restricted to the keys the codec reads: the
side-channel coordinate-system keys `cs` and `tcs` (integer enumeration
values stored as strings) and the `name` key.  `extra` holds the remaining
free-form pairs (the workbench tags). -/
structure Metadata where
  cs : Option ℕ
  tcs : Option ℕ
  name : Option String
  extra : List (String × String)
  deriving DecidableEq, Repr

/-- Metadata with no keys set. -/
def emptyMeta : Metadata := ⟨none, none, none, []⟩

/-- The embedded coordinate-transform record of a pointset array: source
reference-frame code (`dataspace`), target code (`xformspace`) and matrix
(`xform`).  Per the spec it is always present at the container level. -/
structure GiftiCoordSystem where
  dataspace : ℕ
  xformspace : ℕ
  xform : List (List ℚ)
  deriving DecidableEq, Repr

/-- The 4×4 identity matrix. -/
def id4 : List (List ℚ) :=
  [[1, 0, 0, 0], [0, 1, 0, 0], [0, 0, 1, 0], [0, 0, 0, 1]]

/-- The coordinate-system record the container library attaches when the
encoder passes none: both codes 0 and an identity matrix. -/
def defaultCoordSys : GiftiCoordSystem := ⟨0, 0, id4⟩

/-- A typed, intent-tagged data array of the container. -/
structure GiftiDataArray where
  intent : Intent
  datatype : DataType
  data : GiftiData
  meta : Metadata
  coordsys : GiftiCoordSystem
  deriving DecidableEq, Repr

/-- A label-table entry: key, color (0–1 float channels) and display name. -/
structure GiftiLabel where
  key : ℤ
  rgba : List ℚ
  label : String
  deriving DecidableEq, Repr

/-- The container: data arrays, label table, file-level metadata. -/
structure GiftiImage where
  darrays : List GiftiDataArray
  labeltable : List GiftiLabel
  meta : List (String × String)
  deriving DecidableEq, Repr

/-- Selection of the arrays with a given intent, in container order. -/
def filterIntent (i : Intent) : List GiftiDataArray → List GiftiDataArray
  | [] => []
  | a :: rest => if a.intent = i then a :: filterIntent i rest else filterIntent i rest

/-- `gii.get_arrays_from_intent(intent)`: the arrays with a given intent, in
container order. -/
def get_arrays_from_intent (gii : GiftiImage) (i : Intent) : List GiftiDataArray :=
  filterIntent i gii.darrays

/-! ## Codec

Translated from `src/nimesh/io/gifti.py`.  Fallible operations return
`Except GiftiError`; the exceptions the Python code can raise (`ValueError`,
`KeyError` from dict/enum lookups) become error constructors. -/

/-- The failures of the codec (Python exceptions). -/
inductive GiftiError where
  /-- `ValueError`: no pointset array / no named estimate array
  (`'does not contain any vertex data'`). -/
  | noVertexData
  /-- `ValueError`: no triangle array (`'does not contain any triangles'`). -/
  | noTriangles
  /-- `ValueError`: no label array on `load_segmentation`. -/
  | noSegmentation
  /-- `ValueError` from `CoordinateSystem(int(metadata['cs']))`: the stored
  value is not an enumeration member. -/
  | badCsValue
  /-- `ValueError` from `CoordinateSystem(int(metadata['tcs']))`. -/
  | badTcsValue
  /-- `KeyError` from `_convert_nifti_code_to_coord_sys` on a code outside
  its table. -/
  | badCode
  /-- `KeyError` from `label_array.metadata['name']`. -/
  | missingName
  /-- A payload of a different kind than the array's declared datatype and
  shape; in Python the untyped `.data` read succeeds and the mismatch would
  surface in the (missing) entity constructors, so well-typed containers
  never reach this case. -/
  | badPayload
  deriving DecidableEq, Repr

/-- The non-fatal warnings of the encoder that the claims mention. -/
inductive Warning where
  | multipleSegmentations
  | multipleTransforms
  deriving DecidableEq, Repr

/-- The three workbench-compatibility tags of `save` / `save_segmentation`
(defaults `'Cortex'`, `'GrayWhite'`, `'Anatomical'`). -/
structure WorkbenchConfig where
  anatomical_structure_primary : String
  anatomical_structure_secondary : String
  geometric_type : String
  deriving DecidableEq, Repr

/-- The default workbench tags. -/
def defaultConfig : WorkbenchConfig := ⟨"Cortex", "GrayWhite", "Anatomical"⟩

/-- `_convert_coord_sys_to_nifti_code`: the encoding table.  The Python dict
covers every member, so the function is total. -/
def convert_coord_sys_to_nifti_code : CoordinateSystem → ℕ
  | .UNKNOWN => 0
  | .SCANNER => 1
  | .RAS => 2
  | .LPS => 2
  | .VOXEL => 0
  | .MNI => 4
  | .TALAIRACH => 3

/-- `_convert_nifti_code_to_coord_sys`: the decoding table.  The Python dict
lookup `convert[code]` raises `KeyError` for a code outside `{0,…,4}`,
modelled as `none`. -/
def convert_nifti_code_to_coord_sys : ℕ → Option CoordinateSystem
  | 0 => some .UNKNOWN
  | 1 => some .SCANNER
  | 2 => some .UNKNOWN
  | 3 => some .TALAIRACH
  | 4 => some .MNI
  | _ => none

/-- The color encoding of `add_segmentation_to_gii`:
`np.array(label.color) / 255`. -/
def encode_color (color : List ℤ) : List ℚ :=
  color.map (fun (c : ℤ) => (c : ℚ) / 255)

/-- The color decoding of `_create_segmentation_from_gii`:
`np.round(np.array(label.rgba) * 255).astype(int)`. -/
def decode_color (rgba : List ℚ) : List ℤ :=
  rgba.map (fun q => roundHalfEven (q * 255))

/-- The label-intent data array built by `add_segmentation_to_gii`: the
per-vertex keys with `datatype='NIFTI_TYPE_INT32'` (the container writer
narrows the values to 4-byte integers) and the segmentation name in the
`name` metadata key. -/
def seg_data_array (seg : Segmentation) : GiftiDataArray :=
  { intent := .label
    datatype := .int32
    data := .i1 (seg.keys.map toI32)
    meta := { emptyMeta with name := some seg.name }
    coordsys := defaultCoordSys }

/-- The label-table entry built by `add_segmentation_to_gii` for one
`(key, label)` item: `GiftiLabel(key, *(color / 255))` with `label` and
`key` set. -/
def gifti_label_of (kl : ℤ × Label) : GiftiLabel :=
  { key := kl.1, rgba := encode_color kl.2.color, label := kl.2.name }

/-- `add_segmentation_to_gii`: append the label array and replace the
container's label table with the segmentation's labels. -/
def add_segmentation_to_gii (seg : Segmentation) (gii : GiftiImage) : GiftiImage :=
  { gii with
    darrays := gii.darrays ++ [seg_data_array seg]
    labeltable := seg.labels.map gifti_label_of }

/-- The estimate-intent data array built by `_add_vertex_data_to_gii`:
4-byte-float data and the vertex-data name in the `name` metadata key. -/
def est_data_array (vd : VertexData) : GiftiDataArray :=
  { intent := .estimate
    datatype := .float32
    data := .f1 (vd.data.map toF32)
    meta := { emptyMeta with name := some vd.name }
    coordsys := defaultCoordSys }

/-- `_add_vertex_data_to_gii`: append one estimate-intent array. -/
def add_vertex_data_to_gii (vd : VertexData) (gii : GiftiImage) : GiftiImage :=
  { gii with darrays := gii.darrays ++ [est_data_array vd] }

/-- `_get_vertex_data_from_gii`: one `VertexData` per estimate-intent array
carrying a `name` metadata key, in container order; an array without a name
is skipped (with a warning).  An array whose payload is not a 1-D float
array is outside the model (see `GiftiError.badPayload`) and is skipped. -/
def get_vertex_data_from_gii (gii : GiftiImage) : List VertexData :=
  (get_arrays_from_intent gii .estimate).filterMap
    (fun a => a.meta.name.bind (fun n => a.data.asF1.map (fun d => ⟨n, d⟩)))

/-- `_get_transform_from_vertex_array`: the transform decision function.
In order: (a) a `tcs` metadata key yields a transform with that exact target
and the embedded matrix; (b) otherwise, differing source and target codes
yield a transform with the Registry-derived target; (c) otherwise no
transform. -/
def get_transform_from_vertex_array (va : GiftiDataArray) :
    Except GiftiError (Option AffineTransform) :=
  match va.meta.tcs with
  | some v =>
    match CoordinateSystem.ofValue? v with
    | some c => .ok (some ⟨c, va.coordsys.xform⟩)
    | none => .error .badTcsValue
  | none =>
    if va.coordsys.dataspace ≠ va.coordsys.xformspace then
      match convert_nifti_code_to_coord_sys va.coordsys.xformspace with
      | some c => .ok (some ⟨c, va.coordsys.xform⟩)
      | none => .error .badCode
    else
      .ok none

/-- `_create_segmentation_from_gii`: `ok none` when there is no label-intent
array; otherwise the first label array (warn on several) gives the keys and
the `name` metadata key (missing name is a `KeyError`), and the label table
populates the mapping via `add_label` with colors converted back to 0–255
integers. -/
def create_segmentation_from_gii (gii : GiftiImage) :
    Except GiftiError (Option Segmentation) :=
  match get_arrays_from_intent gii .label with
  | [] => .ok none
  | la :: _ =>
    match la.meta.name with
    | none => .error .missingName
    | some name =>
      match la.data.asI1 with
      | none => .error .badPayload
      | some keys =>
        .ok (some
          { name := name
            keys := keys
            labels := gii.labeltable.foldl
              (fun acc gl => add_label acc gl.key ⟨gl.label, decode_color gl.rgba⟩) [] })

/-- Lines 52–57 of `load`: the coordinate system of the mesh comes from the
`cs` side-channel metadata key when present, and from the pointset array's
embedded `dataspace` code via the lossy decoding table otherwise. -/
def resolve_coordinate_system (va : GiftiDataArray) :
    Except GiftiError CoordinateSystem :=
  match va.meta.cs with
  | some v =>
    match CoordinateSystem.ofValue? v with
    | some c => .ok c
    | none => .error .badCsValue
  | none =>
    match convert_nifti_code_to_coord_sys va.coordsys.dataspace with
    | some c => .ok c
    | none => .error .badCode

/-- `load`: decode a mesh from a container.  Requires a pointset array and a
triangle array (first-in-container-order on multiples, after a warning),
resolves the coordinate system, takes optional normals from the first
vector-intent array, and attaches the decoded transform, segmentation and
vertex data. -/
def load (gii : GiftiImage) : Except GiftiError Mesh :=
  match get_arrays_from_intent gii .pointset with
  | [] => .error .noVertexData
  | va :: _ =>
  match resolve_coordinate_system va with
  | .error e => .error e
  | .ok cs =>
  match get_arrays_from_intent gii .triangle with
  | [] => .error .noTriangles
  | ta :: _ =>
  match va.data.asF2 with
  | none => .error .badPayload
  | some vertices =>
  match ta.data.asI2 with
  | none => .error .badPayload
  | some triangles =>
  match
    (match get_arrays_from_intent gii .vector with
     | [] => Except.ok none
     | na :: _ =>
       match na.data.asF2 with
       | some rows => Except.ok (some rows)
       | none => Except.error GiftiError.badPayload) with
  | .error e => .error e
  | .ok normals =>
  match get_transform_from_vertex_array va with
  | .error e => .error e
  | .ok transform =>
  match create_segmentation_from_gii gii with
  | .error e => .error e
  | .ok seg =>
  .ok
    { vertices := vertices
      triangles := triangles
      coordinate_system := cs
      normals := normals
      transforms := transform.toList
      segmentations := seg.toList
      vertex_data := get_vertex_data_from_gii gii }

/-- `load_segmentation`: decode the segmentation alone; a container without
one is an error. -/
def load_segmentation (gii : GiftiImage) : Except GiftiError Segmentation :=
  match create_segmentation_from_gii gii with
  | .error e => .error e
  | .ok none => .error .noSegmentation
  | .ok (some s) => .ok s

/-- `load_vertex_data`: decode the per-vertex data arrays; an empty result
is an error.  The source returns `vertex_data_list[0]` (warning when there
are several), although its own annotation declares `List[VertexData]`. -/
def load_vertex_data (gii : GiftiImage) : Except GiftiError VertexData :=
  match get_vertex_data_from_gii gii with
  | [] => .error .noVertexData
  | v :: _ => .ok v

/-- `save`: encode a mesh into a container, also returning the warnings
emitted.  The segmentation (first of possibly several, after a warning) is
added first; the pointset array carries the `cs` side-channel key, the
workbench tags, and — when a transform is attached (first of possibly
several, after a warning) — the embedded transform record plus the `tcs`
side-channel key; then the triangle array, optional normals, and one
estimate array per vertex-data map. -/
def save (m : Mesh) (cfg : WorkbenchConfig) : GiftiImage × List Warning :=
  let warnsSeg : List Warning :=
    if 1 < m.segmentations.length then [.multipleSegmentations] else []
  let gii0 : GiftiImage := ⟨[], [], []⟩
  let gii1 : GiftiImage :=
    match m.segmentations with
    | [] => gii0
    | s :: _ => add_segmentation_to_gii s gii0
  let warnsTr : List Warning :=
    if 1 < m.transforms.length then [.multipleTransforms] else []
  let csysMeta : GiftiCoordSystem × Option ℕ :=
    match m.transforms with
    | [] => (defaultCoordSys, none)
    | t :: _ =>
      (⟨convert_coord_sys_to_nifti_code m.coordinate_system,
        convert_coord_sys_to_nifti_code t.transform_coord_sys,
        t.affine⟩,
       some t.transform_coord_sys.value)
  let vertices_array : GiftiDataArray :=
    { intent := .pointset
      datatype := .float32
      data := .f2 (m.vertices.map (fun r => r.map toF32))
      meta :=
        { cs := some m.coordinate_system.value
          tcs := csysMeta.2
          name := none
          extra :=
            [("AnatomicalStructurePrimary", cfg.anatomical_structure_primary),
             ("AnatomicalStructureSecondary", cfg.anatomical_structure_secondary),
             ("GeometricType", cfg.geometric_type)] }
      coordsys := csysMeta.1 }
  let triangles_array : GiftiDataArray :=
    { intent := .triangle
      datatype := .int32
      data := .i2 (m.triangles.map (fun r => r.map toI32))
      meta := emptyMeta
      coordsys := defaultCoordSys }
  let gii2 : GiftiImage :=
    { gii1 with darrays := gii1.darrays ++ [vertices_array, triangles_array] }
  let gii3 : GiftiImage :=
    match m.normals with
    | none => gii2
    | some ns =>
      { gii2 with
        darrays := gii2.darrays ++
          [{ intent := .vector
             datatype := .float32
             data := .f2 (ns.map (fun r => r.map toF32))
             meta := emptyMeta
             coordsys := defaultCoordSys }] }
  let gii4 : GiftiImage := m.vertex_data.foldl (fun g vd => add_vertex_data_to_gii vd g) gii3
  (gii4, warnsSeg ++ warnsTr)

/-- `save_segmentation`: a container holding only the segmentation, with the
workbench tags in the file-level metadata. -/
def save_segmentation (seg : Segmentation) (cfg : WorkbenchConfig) : GiftiImage :=
  let gii0 : GiftiImage :=
    ⟨[], [],
     [("AnatomicalStructurePrimary", cfg.anatomical_structure_primary),
      ("AnatomicalStructureSecondary", cfg.anatomical_structure_secondary),
      ("GeometricType", cfg.geometric_type)]⟩
  add_segmentation_to_gii seg gii0

/-- `save_vertex_data`: a container holding only one estimate array. -/
def save_vertex_data (vd : VertexData) : GiftiImage :=
  add_vertex_data_to_gii vd ⟨[], [], []⟩

/-! ## Helper lemmas -/

/-- Enumeration lookup round-trip: looking a member up by its own value
recovers the member. -/
theorem CoordinateSystem.ofValue_value (c : CoordinateSystem) :
    CoordinateSystem.ofValue? c.value = some c := by
  cases c <;> rfl

/-- Half-to-even rounding is the identity on integers. -/
theorem roundHalfEven_intCast (z : ℤ) : roundHalfEven (z : ℚ) = z := by
  unfold roundHalfEven
  rw [Int.floor_intCast]
  simp only [sub_self]
  rw [if_neg (by norm_num)]
  exact round_intCast z

/-- Dividing a 0–255 integer channel by 255 and rounding the product with
255 back recovers the channel exactly. -/
theorem decode_encode_color (color : List ℤ) :
    decode_color (encode_color color) = color := by
  induction color with
  | nil => rfl
  | cons c t ih =>
    have hc : roundHalfEven ((c : ℚ) / 255 * 255) = c := by
      rw [div_mul_cancel₀ _ (by norm_num : (255 : ℚ) ≠ 0)]
      exact roundHalfEven_intCast c
    simp only [decode_color, encode_color, List.map_cons] at ih ⊢
    rw [hc, ih]

/-- Intent selection distributes over concatenation. -/
theorem filterIntent_append (i : Intent) (l₁ l₂ : List GiftiDataArray) :
    filterIntent i (l₁ ++ l₂) = filterIntent i l₁ ++ filterIntent i l₂ := by
  induction l₁ with
  | nil => rfl
  | cons a rest ih =>
    simp only [List.cons_append, filterIntent]
    split <;> simp [ih]

/-- Estimate arrays are invisible to any other intent selection. -/
theorem filterIntent_map_est (i : Intent) (h : i ≠ .estimate) (l : List VertexData) :
    filterIntent i (l.map est_data_array) = [] := by
  induction l with
  | nil => rfl
  | cons v rest ih =>
    simp only [List.map_cons, filterIntent, est_data_array]
    rw [if_neg (fun hh => h hh.symm)]
    exact ih

/-- Estimate-intent selection keeps every estimate array. -/
theorem filterIntent_map_est_estimate (l : List VertexData) :
    filterIntent .estimate (l.map est_data_array) = l.map est_data_array := by
  induction l with
  | nil => rfl
  | cons v rest ih =>
    simp only [List.map_cons, filterIntent, est_data_array]
    rw [ih]
    simp

/-- Folding `_add_vertex_data_to_gii` over the vertex-data maps appends one
estimate array per map and touches nothing else. -/
theorem foldl_add_vertex_data (l : List VertexData) (g : GiftiImage) :
    l.foldl (fun g vd => add_vertex_data_to_gii vd g) g =
      ⟨g.darrays ++ l.map est_data_array, g.labeltable, g.meta⟩ := by
  induction l generalizing g with
  | nil =>
    simp only [List.foldl_nil, List.map_nil, List.append_nil]
  | cons v rest ih =>
    rw [List.foldl_cons, ih]
    simp [add_vertex_data_to_gii, List.append_assoc]

/-- Decoding the estimate arrays the encoder wrote recovers the vertex-data
maps, with values narrowed to 4-byte floats. -/
theorem filterMap_map_est (l : List VertexData) :
    l.filterMap
        ((fun (a : GiftiDataArray) =>
            a.meta.name.bind (fun n => a.data.asF1.map (fun d => VertexData.mk n d)))
          ∘ est_data_array) =
      l.map (fun vd => VertexData.mk vd.name (vd.data.map toF32)) := by
  induction l with
  | nil => rfl
  | cons v rest ih =>
    rw [List.map_cons, List.filterMap_cons]
    have hd : ((fun (a : GiftiDataArray) =>
          a.meta.name.bind (fun n => a.data.asF1.map (fun d => VertexData.mk n d)))
        ∘ est_data_array) v = some (VertexData.mk v.name (v.data.map toF32)) := rfl
    rw [hd, ih]

/-! ## The save/load round trip -/

/-- What decoding does to an encoded segmentation: keys narrowed to 4-byte
integers, and the label mapping rebuilt through `add_label` with each color
pushed through the float channel conversion. -/
def round_trip_segmentation (s : Segmentation) : Segmentation :=
  { name := s.name
    keys := s.keys.map toI32
    labels := s.labels.foldl
      (fun acc kl => add_label acc kl.1 ⟨kl.2.name, decode_color (encode_color kl.2.color)⟩) [] }

/-- What decoding does to an encoded mesh: vertices, normals and vertex data
narrowed to 4-byte floats, triangles to 4-byte integers, the coordinate
system reproduced exactly, the first transform reproduced exactly (through
the `tcs` side-channel key), and the first segmentation round-tripped. -/
def round_trip_mesh (m : Mesh) : Mesh :=
  { vertices := m.vertices.map (fun r => r.map toF32)
    triangles := m.triangles.map (fun r => r.map toI32)
    coordinate_system := m.coordinate_system
    normals := m.normals.map (fun ns => ns.map (fun r => r.map toF32))
    transforms := m.transforms.take 1
    segmentations := (m.segmentations.head?.map round_trip_segmentation).toList
    vertex_data := m.vertex_data.map (fun vd => ⟨vd.name, vd.data.map toF32⟩) }

/-- Decoding an encoded mesh always succeeds and yields `round_trip_mesh`. -/
theorem load_save (m : Mesh) (cfg : WorkbenchConfig) :
    load (save m cfg).1 = .ok (round_trip_mesh m) := by
  rcases m with ⟨v, t, cs, ns, trs, segs, vds⟩
  rcases segs with _ | ⟨s, segs⟩ <;> rcases trs with _ | ⟨tr, trs⟩ <;>
    rcases ns with _ | n <;>
    simp [save, load, round_trip_mesh, round_trip_segmentation,
      add_segmentation_to_gii, seg_data_array, est_data_array, gifti_label_of,
      foldl_add_vertex_data, get_arrays_from_intent, filterIntent,
      filterIntent_append, filterIntent_map_est, filterIntent_map_est_estimate,
      resolve_coordinate_system, CoordinateSystem.ofValue_value,
      get_transform_from_vertex_array, create_segmentation_from_gii,
      get_vertex_data_from_gii, filterMap_map_est, GiftiData.asF2,
      GiftiData.asI2, GiftiData.asI1, defaultCoordSys, emptyMeta,
      List.foldl_map]

/-! ## Claim C4 — registry totality -/

/-- C4 counterexample: the decoding table raises (`none`) on the integer 5
instead of falling back to `UNKNOWN`, so `from_code` is not total over the
integers. -/
theorem claim_c4_counterexample :
    convert_nifti_code_to_coord_sys 5 = none ∧
    convert_nifti_code_to_coord_sys 5 ≠ some CoordinateSystem.UNKNOWN := by
  exact ⟨rfl, by decide⟩

/-- C4 (amended): `to_code` is total over the enumeration (always producing
a code in the table `{0,…,4}`); `from_code` returns a coordinate system for
exactly the codes `{0,1,2,3,4}` and raises a `KeyError` (modelled `none`) on
every other integer, with no fallback to `UNKNOWN`. -/
theorem claim_c4_registry_totality :
    (∀ c : CoordinateSystem, convert_coord_sys_to_nifti_code c ≤ 4) ∧
    (∀ n : ℕ, n ≤ 4 → (convert_nifti_code_to_coord_sys n).isSome) ∧
    (∀ n : ℕ, 4 < n → convert_nifti_code_to_coord_sys n = none) := by
  refine ⟨fun c => ?_, fun n hn => ?_, fun n hn => ?_⟩
  · cases c <;> decide
  · interval_cases n <;> decide
  · obtain ⟨k, rfl⟩ : ∃ k, n = k + 5 := ⟨n - 5, by omega⟩
    rfl

/-- C4 witness: the amended statement at the concrete codes 3 and 7. -/
theorem claim_c4_registry_totality_witness :
    (convert_nifti_code_to_coord_sys 3).isSome ∧
    convert_nifti_code_to_coord_sys 7 = none :=
  ⟨claim_c4_registry_totality.2.1 3 (by decide),
   claim_c4_registry_totality.2.2 7 (by decide)⟩

/-! ## Claim C6 — the transform decision function -/

/-- C6: `_get_transform_from_vertex_array` applies its rules in order:
(a) a `tcs` metadata key (holding the value of a coordinate system) yields a
transform with exactly that target and the embedded matrix; (b) otherwise,
differing source and target codes yield a transform whose target comes from
the registry decoding of the target code; (c) otherwise (equal codes) no
transform is produced. -/
theorem claim_c6_transform_decision (va : GiftiDataArray) :
    (∀ v c, va.meta.tcs = some v → CoordinateSystem.ofValue? v = some c →
      get_transform_from_vertex_array va = .ok (some ⟨c, va.coordsys.xform⟩)) ∧
    (va.meta.tcs = none → va.coordsys.dataspace ≠ va.coordsys.xformspace →
      ∀ c, convert_nifti_code_to_coord_sys va.coordsys.xformspace = some c →
      get_transform_from_vertex_array va = .ok (some ⟨c, va.coordsys.xform⟩)) ∧
    (va.meta.tcs = none → va.coordsys.dataspace = va.coordsys.xformspace →
      get_transform_from_vertex_array va = .ok none) := by
  refine ⟨fun v c hv hc => ?_, fun h0 hne c hc => ?_, fun h0 heq => ?_⟩
  · simp only [get_transform_from_vertex_array, hv, hc]
  · simp only [get_transform_from_vertex_array, h0]
    rw [if_pos hne]
    simp only [hc]
  · simp only [get_transform_from_vertex_array, h0]
    rw [if_neg (not_not_intro heq)]

/-- A pointset array whose metadata carries `tcs = 2` (the value of `RAS`). -/
def va_with_tcs : GiftiDataArray :=
  { intent := .pointset
    datatype := .float32
    data := .f2 []
    meta := { cs := none, tcs := some 2, name := none, extra := [] }
    coordsys := ⟨0, 4, id4⟩ }

/-- A pointset array without `tcs` whose embedded codes differ (0 vs 4). -/
def va_codes_differ : GiftiDataArray :=
  { intent := .pointset
    datatype := .float32
    data := .f2 []
    meta := emptyMeta
    coordsys := ⟨0, 4, id4⟩ }

/-- A pointset array without `tcs` whose embedded codes agree (2 vs 2). -/
def va_codes_equal : GiftiDataArray :=
  { intent := .pointset
    datatype := .float32
    data := .f2 []
    meta := emptyMeta
    coordsys := ⟨2, 2, id4⟩ }

/-- C6 witness: the three rules at concrete arrays — the `tcs` key wins and
gives `RAS` exactly, differing codes give the registry target `MNI`, and
equal codes give no transform. -/
theorem claim_c6_transform_decision_witness :
    get_transform_from_vertex_array va_with_tcs =
      .ok (some ⟨CoordinateSystem.RAS, id4⟩) ∧
    get_transform_from_vertex_array va_codes_differ =
      .ok (some ⟨CoordinateSystem.MNI, id4⟩) ∧
    get_transform_from_vertex_array va_codes_equal = .ok none :=
  ⟨(claim_c6_transform_decision va_with_tcs).1 2 CoordinateSystem.RAS rfl rfl,
   (claim_c6_transform_decision va_codes_differ).2.1 rfl (by decide)
     CoordinateSystem.MNI rfl,
   (claim_c6_transform_decision va_codes_equal).2.2 rfl rfl⟩

/-! ## Claim C8 — label color round trip -/

/-- C8: the color `(255, 128, 0)` encodes by division by 255 to the float
channels `(1, 128/255, 0)` — where `128/255` is `0.502` rounded to three
decimals — and decodes back to `(255, 128, 0)` exactly; every 0–255 integer
channel survives the encode/decode path exactly (in particular to within the
claimed ±1). -/
theorem claim_c8_label_color_round_trip :
    encode_color [255, 128, 0] = [1, 128/255, 0] ∧
    |(128 : ℚ)/255 - 502/1000| ≤ 1/2000 ∧
    decode_color (encode_color [255, 128, 0]) = [255, 128, 0] ∧
    (∀ c : ℤ, 0 ≤ c → c ≤ 255 → decode_color (encode_color [c]) = [c]) := by
  refine ⟨by norm_num [encode_color],
    abs_le.mpr ⟨by norm_num, by norm_num⟩, decode_encode_color _, ?_⟩
  intro c _ _
  exact decode_encode_color [c]

/-- C8 witness: the channel-wise round trip at the concrete channel 77. -/
theorem claim_c8_label_color_round_trip_witness :
    decode_color (encode_color [77]) = [77] :=
  claim_c8_label_color_round_trip.2.2.2 77 (by decide) (by decide)

/-! ## Claim C5 — missing triangle array -/

/-- The empty container. -/
def empty_gii : GiftiImage := ⟨[], [], []⟩

/-- C5 counterexample: the empty container has zero triangle arrays, yet
`load` fails with the missing-vertex error, not the missing-triangle error —
the pointset check runs first, so the failure is not independent of pointset
presence. -/
theorem claim_c5_counterexample :
    load empty_gii = .error .noVertexData ∧
    GiftiError.noVertexData ≠ GiftiError.noTriangles :=
  ⟨rfl, by decide⟩

/-- C5 (amended): a container with at least one pointset array whose
coordinate-system resolution succeeds and with zero triangle arrays fails
with the missing-triangle error; without a pointset array, `load` fails
earlier with the missing-vertex error instead. -/
theorem claim_c5_missing_triangles (gii : GiftiImage) (va : GiftiDataArray)
    (rest : List GiftiDataArray) (c : CoordinateSystem)
    (hpa : get_arrays_from_intent gii .pointset = va :: rest)
    (hres : resolve_coordinate_system va = .ok c)
    (htr : get_arrays_from_intent gii .triangle = []) :
    load gii = .error .noTriangles := by
  simp only [load, hpa, hres, htr]

/-- A container holding a single pointset array and nothing else. -/
def pointset_only_gii : GiftiImage :=
  ⟨[{ intent := .pointset
      datatype := .float32
      data := .f2 [[0, 0, 0]]
      meta := emptyMeta
      coordsys := defaultCoordSys }], [], []⟩

/-- C5 witness: the amended statement at a concrete container with one
pointset array and no triangle array. -/
theorem claim_c5_missing_triangles_witness :
    load pointset_only_gii = .error .noTriangles :=
  claim_c5_missing_triangles pointset_only_gii
    { intent := .pointset
      datatype := .float32
      data := .f2 [[0, 0, 0]]
      meta := emptyMeta
      coordsys := defaultCoordSys }
    [] .UNKNOWN rfl rfl rfl

/-! ## Claim C7 — lossy reference-frame code 2 -/

/-- C7: when the first pointset array carries the embedded reference-frame
code 2 and no `cs` side-channel key, any successfully loaded mesh has
coordinate system `UNKNOWN`. -/
theorem claim_c7_code2_decodes_unknown (gii : GiftiImage) (m : Mesh)
    (va : GiftiDataArray) (rest : List GiftiDataArray)
    (hpa : get_arrays_from_intent gii .pointset = va :: rest)
    (hcs : va.meta.cs = none) (hds : va.coordsys.dataspace = 2)
    (hload : load gii = .ok m) :
    m.coordinate_system = .UNKNOWN := by
  have hres : resolve_coordinate_system va = .ok .UNKNOWN := by
    simp only [resolve_coordinate_system, hcs, hds]
    rfl
  simp only [load, hpa, hres] at hload
  repeat' split at hload
  all_goals cases hload <;> rfl

/-- A container whose pointset array carries code 2 and no `cs` key,
together with a triangle array. -/
def code2_gii : GiftiImage :=
  ⟨[{ intent := .pointset
      datatype := .float32
      data := .f2 [[0, 0, 0]]
      meta := emptyMeta
      coordsys := ⟨2, 2, id4⟩ },
    { intent := .triangle
      datatype := .int32
      data := .i2 [[0, 0, 0]]
      meta := emptyMeta
      coordsys := defaultCoordSys }], [], []⟩

/-- C7 witness: loading the concrete code-2 container succeeds and the
theorem applies, giving coordinate system `UNKNOWN`. -/
theorem claim_c7_code2_decodes_unknown_witness :
    Mesh.coordinate_system
      { vertices := [[0, 0, 0]]
        triangles := [[0, 0, 0]]
        coordinate_system := .UNKNOWN
        normals := none
        transforms := []
        segmentations := []
        vertex_data := [] } = .UNKNOWN :=
  claim_c7_code2_decodes_unknown code2_gii _
    { intent := .pointset
      datatype := .float32
      data := .f2 [[0, 0, 0]]
      meta := emptyMeta
      coordsys := ⟨2, 2, id4⟩ }
    [] rfl rfl rfl rfl

/-! ## Claim C3 — `load_vertex_data` drops all but the first map -/

/-- An estimate-intent array named `a`. -/
def est_array_a : GiftiDataArray :=
  { intent := .estimate
    datatype := .float32
    data := .f1 [1, 2]
    meta := { emptyMeta with name := some "a" }
    coordsys := defaultCoordSys }

/-- An estimate-intent array named `b`. -/
def est_array_b : GiftiDataArray :=
  { intent := .estimate
    datatype := .float32
    data := .f1 [3]
    meta := { emptyMeta with name := some "b" }
    coordsys := defaultCoordSys }

/-- A container holding two named estimate-intent arrays. -/
def two_estimates_gii : GiftiImage := ⟨[est_array_a, est_array_b], [], []⟩

/-- C3: the internal collection builds one `VertexData` per named
estimate-intent array in container order, but `load_vertex_data` returns
only the first of them (its own `List[VertexData]` annotation
notwithstanding). -/
theorem claim_c3_load_vertex_data_first_only :
    get_vertex_data_from_gii two_estimates_gii = [⟨"a", [1, 2]⟩, ⟨"b", [3]⟩] ∧
    load_vertex_data two_estimates_gii = .ok ⟨"a", [1, 2]⟩ :=
  ⟨rfl, rfl⟩

/-! ## Claim C2 — identity-looking transforms are not elided on round trip -/

/-- A mesh whose single transform targets the mesh's own coordinate
system. -/
def identity_transform_mesh : Mesh :=
  { vertices := [[0, 0, 0], [1, 0, 0], [0, 1, 0]]
    triangles := [[0, 1, 2]]
    coordinate_system := .RAS
    normals := none
    transforms := [⟨.RAS, id4⟩]
    segmentations := []
    vertex_data := [] }

/-- C2 counterexample: saving a mesh whose transform targets the mesh's own
coordinate system and loading it back yields one transform, not zero — the
`tcs` side-channel key written by `save` takes precedence over the
equal-codes elision rule. -/
theorem claim_c2_counterexample :
    (load (save identity_transform_mesh defaultConfig).1).map
        (fun m => m.transforms.length) = .ok 1 ∧
    (Except.ok 1 : Except GiftiError ℕ) ≠ .ok 0 := by
  refine ⟨?_, by simp⟩
  rfl

/-- C2 (amended): a mesh with a single transform targeting its own
coordinate system round-trips to a mesh with that one transform preserved
exactly (through the `tcs` side-channel key); the equal-codes elision
applies only to containers lacking the `tcs` key. -/
theorem claim_c2_tcs_preserves_transform (m : Mesh) (cfg : WorkbenchConfig)
    (t : AffineTransform) (hm : m.transforms = [t])
    (_ht : t.transform_coord_sys = m.coordinate_system) :
    ∃ m', load (save m cfg).1 = .ok m' ∧ m'.transforms = [t] :=
  ⟨round_trip_mesh m, load_save m cfg, by simp [round_trip_mesh, hm]⟩

/-- C2 witness: the amended statement at the concrete identity-targeting
mesh. -/
theorem claim_c2_tcs_preserves_transform_witness :
    ∃ m', load (save identity_transform_mesh defaultConfig).1 = .ok m' ∧
      m'.transforms = [⟨CoordinateSystem.RAS, id4⟩] :=
  claim_c2_tcs_preserves_transform identity_transform_mesh defaultConfig
    ⟨CoordinateSystem.RAS, id4⟩ rfl rfl

/-! ## Claim C1 — mesh round trip -/

/-- The pointset array the encoder emits always carries the exact coordinate
system in the `cs` side-channel metadata key. -/
theorem saved_pointset_cs (m : Mesh) (cfg : WorkbenchConfig) :
    (get_arrays_from_intent (save m cfg).1 .pointset).head?.map
        (fun a => a.meta.cs) = some (some m.coordinate_system.value) := by
  rcases m with ⟨v, t, cs, ns, trs, segs, vds⟩
  rcases segs with _ | ⟨s, segs⟩ <;> rcases trs with _ | ⟨tr, trs⟩ <;>
    rcases ns with _ | n <;>
    simp [save, add_segmentation_to_gii, seg_data_array, est_data_array,
      foldl_add_vertex_data, get_arrays_from_intent, filterIntent,
      filterIntent_append, filterIntent_map_est]

/-- C1: saving a mesh (N≥3 vertices, M≥1 triangles, at most one transform)
and loading it back reproduces the vertices up to 4-byte-float narrowing,
the triangles up to 4-byte-integer narrowing, and the coordinate system
exactly — carried by the `cs` side-channel metadata key on the saved
pointset array, not by the lossy integer code. -/
theorem claim_c1_mesh_round_trip (m : Mesh) (cfg : WorkbenchConfig)
    (_hv : 3 ≤ m.vertices.length) (_htr : 1 ≤ m.triangles.length)
    (_htf : m.transforms.length ≤ 1) :
    ∃ m', load (save m cfg).1 = .ok m' ∧
      m'.vertices = m.vertices.map (fun r => r.map toF32) ∧
      m'.triangles = m.triangles.map (fun r => r.map toI32) ∧
      m'.coordinate_system = m.coordinate_system ∧
      (get_arrays_from_intent (save m cfg).1 .pointset).head?.map
          (fun a => a.meta.cs) = some (some m.coordinate_system.value) :=
  ⟨round_trip_mesh m, load_save m cfg, rfl, rfl, rfl, saved_pointset_cs m cfg⟩

/-- C1 witness: the round trip at a concrete mesh with three vertices, one
triangle, one transform. -/
theorem claim_c1_mesh_round_trip_witness :
    ∃ m', load (save identity_transform_mesh defaultConfig).1 = .ok m' ∧
      m'.vertices = identity_transform_mesh.vertices.map (fun r => r.map toF32) ∧
      m'.triangles = identity_transform_mesh.triangles.map (fun r => r.map toI32) ∧
      m'.coordinate_system = identity_transform_mesh.coordinate_system ∧
      (get_arrays_from_intent
          (save identity_transform_mesh defaultConfig).1 .pointset).head?.map
        (fun a => a.meta.cs) =
        some (some identity_transform_mesh.coordinate_system.value) :=
  claim_c1_mesh_round_trip identity_transform_mesh defaultConfig
    (by decide) (by decide) (by decide)

/-! ## Claim C9 — at most one segmentation is encoded -/

/-- C9: saving a mesh with two or more segmentations warns, and the
container holds exactly one label-intent array — the first segmentation's
keys (narrowed to 4-byte integers) — and a label table built from the first
segmentation's labels only; `save` is total, so the violation never fails. -/
theorem claim_c9_single_segmentation (m : Mesh) (cfg : WorkbenchConfig)
    (s s2 : Segmentation) (rest : List Segmentation)
    (hs : m.segmentations = s :: s2 :: rest) :
    Warning.multipleSegmentations ∈ (save m cfg).2 ∧
    get_arrays_from_intent (save m cfg).1 .label = [seg_data_array s] ∧
    (seg_data_array s).data = .i1 (s.keys.map toI32) ∧
    (save m cfg).1.labeltable = s.labels.map gifti_label_of := by
  rcases m with ⟨v, t, cs, ns, trs, segs, vds⟩
  dsimp only at hs
  subst hs
  have hlen : (1 : ℕ) < (s :: s2 :: rest).length := by simp
  rcases trs with _ | ⟨tr, trs⟩ <;> rcases ns with _ | n <;>
    simp [save, hlen, add_segmentation_to_gii, seg_data_array, est_data_array,
      gifti_label_of, foldl_add_vertex_data, get_arrays_from_intent,
      filterIntent, filterIntent_append, filterIntent_map_est]

/-- The first segmentation of the C9 witness mesh. -/
def seg_first : Segmentation := ⟨"first", [0, 1, 0], [(0, ⟨"bg", [255, 128, 0]⟩)]⟩

/-- The second segmentation of the C9 witness mesh. -/
def seg_second : Segmentation := ⟨"second", [1, 1, 1], [(1, ⟨"fg", [0, 0, 255]⟩)]⟩

/-- A mesh carrying two segmentations. -/
def two_segmentations_mesh : Mesh :=
  { vertices := [[0, 0, 0], [1, 0, 0], [0, 1, 0]]
    triangles := [[0, 1, 2]]
    coordinate_system := .RAS
    normals := none
    transforms := []
    segmentations := [seg_first, seg_second]
    vertex_data := [] }

/-- C9 witness: the statement at the concrete two-segmentation mesh. -/
theorem claim_c9_single_segmentation_witness :
    Warning.multipleSegmentations ∈ (save two_segmentations_mesh defaultConfig).2 ∧
    get_arrays_from_intent (save two_segmentations_mesh defaultConfig).1 .label =
      [seg_data_array seg_first] ∧
    (seg_data_array seg_first).data = .i1 (seg_first.keys.map toI32) ∧
    (save two_segmentations_mesh defaultConfig).1.labeltable =
      seg_first.labels.map gifti_label_of :=
  claim_c9_single_segmentation two_segmentations_mesh defaultConfig
    seg_first seg_second [] rfl

/-! ## Claim C10 — segmentation round trip -/

/-- Structure eta for labels, as a rewrite. -/
theorem Label.mk_eta (l : Label) : Label.mk l.name l.color = l := rfl

/-- Rebuilding a mapping through `add_label` from entries with pairwise
distinct keys, none of which occurs in the accumulator, appends them in
order. -/
theorem foldl_add_label (l : List (ℤ × Label)) (acc : List (ℤ × Label))
    (hnd : (l.map Prod.fst).Nodup)
    (hdisj : ∀ p ∈ acc, ∀ q ∈ l, p.1 ≠ q.1) :
    l.foldl (fun acc kl => add_label acc kl.1 kl.2) acc = acc ++ l := by
  induction l generalizing acc with
  | nil => simp
  | cons kl t ih =>
    rw [List.foldl_cons]
    have hany : acc.any (fun p => p.1 = kl.1) = false := by
      simp only [List.any_eq_false, decide_eq_true_eq]
      exact fun p hp => hdisj p hp kl (List.mem_cons_self kl t)
    have hstep : add_label acc kl.1 kl.2 = acc ++ [(kl.1, kl.2)] := by
      simp [add_label, hany]
    rw [hstep]
    rw [List.map_cons, List.nodup_cons] at hnd
    rw [ih (acc ++ [(kl.1, kl.2)]) hnd.2]
    · simp
    · intro p hp q hq
      rcases List.mem_append.mp hp with hacc | hkl
      · exact hdisj p hacc q (List.mem_cons_of_mem kl hq)
      · rcases List.mem_singleton.mp hkl with rfl
        exact fun hpq => hnd.1 (hpq ▸ List.mem_map_of_mem Prod.fst hq)

/-- C10: saving a segmentation alone and loading it back reproduces it
exactly — name, per-vertex keys (given that the keys fit in 4-byte
integers), and every label's key, name and integer color (the color
conversion is exactly inverted, within the ±1 budget a fortiori).  The
label keys are pairwise distinct, being keys of a Python dict. -/
theorem claim_c10_segmentation_round_trip (seg : Segmentation)
    (cfg : WorkbenchConfig)
    (hk : ∀ k ∈ seg.keys, toI32 k = k)
    (hnd : (seg.labels.map Prod.fst).Nodup) :
    load_segmentation (save_segmentation seg cfg) = .ok seg := by
  have hkeys : seg.keys.map toI32 = seg.keys :=
    (List.map_congr_left hk).trans (List.map_id _)
  have hfold : (seg.labels.map gifti_label_of).foldl
      (fun acc gl => add_label acc gl.key ⟨gl.label, decode_color gl.rgba⟩) [] =
      seg.labels := by
    rw [List.foldl_map]
    have hfun : (fun (acc : List (ℤ × Label)) (kl : ℤ × Label) =>
        add_label acc (gifti_label_of kl).key
          ⟨(gifti_label_of kl).label, decode_color (gifti_label_of kl).rgba⟩) =
        fun acc kl => add_label acc kl.1 kl.2 := by
      funext acc kl
      simp [gifti_label_of, decode_encode_color, Label.mk_eta]
    rw [hfun, foldl_add_label seg.labels [] hnd (by simp)]
    simp
  simp only [load_segmentation, save_segmentation, add_segmentation_to_gii,
    create_segmentation_from_gii, get_arrays_from_intent, List.nil_append,
    seg_data_array, filterIntent, if_pos rfl, GiftiData.asI1, hkeys, hfold]
  rfl

/-- A concrete segmentation with two labels. -/
def sample_segmentation : Segmentation :=
  ⟨"parcellation", [0, 1, 1], [(0, ⟨"bg", [255, 128, 0]⟩), (1, ⟨"fg", [0, 0, 255]⟩)]⟩

/-- C10 witness: the round trip at a concrete segmentation. -/
theorem claim_c10_segmentation_round_trip_witness :
    load_segmentation (save_segmentation sample_segmentation defaultConfig) =
      .ok sample_segmentation :=
  claim_c10_segmentation_round_trip sample_segmentation defaultConfig
    (by decide) (by decide)

end Nimesh
